import Mathlib

/-!
# Verification of `portable/krb5-extra.c`

A shallow embedding of the three fallback functions of the Kerberos portability
layer (`krb5_get_error_message`, `krb5_free_error_message`,
`krb5_get_init_creds_opt_alloc`) and theorems about them.

Conventions of the embedding:

* the preprocessor symbols tested inside the function bodies are the fields of
  `Config`; each definition is the body that is compiled when the enclosing
  `#ifndef` guard of the function holds;
* the Kerberos library and libc are parameters: their functions are fields of
  `Krb5Lib` and `Platform`, and a call to one of them is recorded in a call log
  carried by the state, so that "which routine was invoked" is observable;
* pointer values are described by the object they designate.
-/

namespace Krb5Extra

/-! ## Data model -/

/-- Build flags tested inside the bodies of the error-message functions. -/
structure Config where
  HAVE_KRB5_GET_ERROR_STRING : Bool
  HAVE_KRB5_GET_ERR_TEXT : Bool
  HAVE_KRB5_SVC_GET_MSG : Bool
  deriving DecidableEq, Repr

/-- A `krb5_context` handle; `none` is the null handle. -/
abbrev krb5_context := Option Nat

/-- A `krb5_error_code` (a C `int`, as is `errno`). -/
abbrev krb5_error_code := Int

/-- A character pointer produced by library code: `none` is `NULL`, `some a`
designates the storage with identifier `a` outside this translation unit
(library-static or heap). The file-scope array `error_unknown` has internal
linkage and its address is never handed to the library lookups, so no lookup
result designates it. -/
abbrev LibPtr := Option Nat

/-- A `const char *` value as seen by the functions of this file. -/
inductive CharPtr where
  /-- The null pointer. -/
  | null : CharPtr
  /-- The address of the static array `error_unknown` of this file. -/
  | error_unknown : CharPtr
  /-- The address of storage outside this file, by identifier. -/
  | foreign (a : Nat) : CharPtr
  deriving DecidableEq, Repr

/-- A library pointer read as a `const char *`. -/
def CharPtr.ofLib : LibPtr → CharPtr
  | none => CharPtr.null
  | some a => CharPtr.foreign a

/-- Contents of `static const char error_unknown[]`. -/
def error_unknown : String := "unknown error"

/-- The text a pointer designates, given the contents `mem` of foreign storage. -/
def CharPtr.text (mem : Nat → Option String) : CharPtr → Option String
  | CharPtr.null => none
  | CharPtr.error_unknown => some Krb5Extra.error_unknown
  | CharPtr.foreign a => mem a

/-- One call into the Kerberos / com_err library, with its arguments. -/
inductive Call where
  | krb5_get_error_string (ctx : krb5_context) : Call
  | krb5_get_err_text (ctx : krb5_context) (code : krb5_error_code) : Call
  | krb5_svc_get_msg (code : krb5_error_code) : Call
  | error_message (code : krb5_error_code) : Call
  | krb5_free_error_string (ctx : krb5_context) (msg : CharPtr) : Call
  | krb5_free_string (ctx : krb5_context) (msg : CharPtr) : Call
  deriving DecidableEq, Repr

/-- Whether a call is one of the two deallocators. -/
def Call.isDealloc : Call → Bool
  | Call.krb5_free_error_string _ _ => true
  | Call.krb5_free_string _ _ => true
  | _ => false

/-- Result of `krb5_svc_get_msg(code, &msg)`: its status, what it stored through
the out-parameter (`none`: the out-parameter was left untouched) and the new
library state. -/
structure SvcResult (σ : Type) where
  status : Int
  store : Option LibPtr
  state : σ

/-- The underlying library, as a family of state transformers over an arbitrary
library state `σ`. -/
structure Krb5Lib (σ : Type) where
  krb5_get_error_string : σ → krb5_context → LibPtr × σ
  krb5_get_err_text : σ → krb5_context → krb5_error_code → LibPtr × σ
  krb5_svc_get_msg : σ → krb5_error_code → CharPtr → SvcResult σ
  error_message : σ → krb5_error_code → LibPtr × σ
  krb5_free_error_string : σ → krb5_context → CharPtr → σ
  krb5_free_string : σ → krb5_context → CharPtr → σ

/-- Program state seen by the error-message functions: the library state and
the log of library calls made so far. -/
structure World (σ : Type) where
  lib : σ
  log : List Call
  deriving DecidableEq, Repr

/-- Number of deallocator calls in a log. -/
def deallocCount (log : List Call) : Nat :=
  (log.filter Call.isDealloc).length

/-! ## Error message adapter -/

/-- Lines 52-62 of `krb5_get_error_message`: `msg` starts as `NULL` and the
`#if` chain runs the one lookup that is compiled in. Returns the value of `msg`
after the chain and the new state. -/
def krb5_get_error_message_lookup {σ : Type} (cfg : Config) (L : Krb5Lib σ)
    (ctx : krb5_context) (code : krb5_error_code) (w : World σ) : CharPtr × World σ :=
  let msg : CharPtr := CharPtr.null
  if cfg.HAVE_KRB5_GET_ERROR_STRING then
    let r := L.krb5_get_error_string w.lib ctx
    (CharPtr.ofLib r.1, ⟨r.2, w.log ++ [Call.krb5_get_error_string ctx]⟩)
  else if cfg.HAVE_KRB5_GET_ERR_TEXT then
    let r := L.krb5_get_err_text w.lib ctx code
    (CharPtr.ofLib r.1, ⟨r.2, w.log ++ [Call.krb5_get_err_text ctx code]⟩)
  else if cfg.HAVE_KRB5_SVC_GET_MSG then
    let r := L.krb5_svc_get_msg w.lib code msg
    (match r.store with
      | none => msg
      | some p => CharPtr.ofLib p,
     ⟨r.state, w.log ++ [Call.krb5_svc_get_msg code]⟩)
  else
    let r := L.error_message w.lib code
    (CharPtr.ofLib r.1, ⟨r.2, w.log ++ [Call.error_message code]⟩)

/-- The function `krb5_get_error_message` (lines 49-67): the lookup followed by
the substitution of `error_unknown` for a null message. -/
def krb5_get_error_message {σ : Type} (cfg : Config) (L : Krb5Lib σ)
    (ctx : krb5_context) (code : krb5_error_code) (w : World σ) : CharPtr × World σ :=
  let r := krb5_get_error_message_lookup cfg L ctx code w
  if r.1 = CharPtr.null then
    (CharPtr.error_unknown, r.2)
  else
    (r.1, r.2)

/-- The function `krb5_free_error_message` (lines 80-90). -/
def krb5_free_error_message {σ : Type} (cfg : Config) (L : Krb5Lib σ)
    (ctx : krb5_context) (msg : CharPtr) (w : World σ) : World σ :=
  if msg = CharPtr.error_unknown then
    w
  else if cfg.HAVE_KRB5_GET_ERROR_STRING then
    ⟨L.krb5_free_error_string w.lib ctx msg, w.log ++ [Call.krb5_free_error_string ctx msg]⟩
  else if cfg.HAVE_KRB5_SVC_GET_MSG then
    ⟨L.krb5_free_string w.lib ctx msg, w.log ++ [Call.krb5_free_string ctx msg]⟩
  else
    w

/-! ## Strategy selection as the specification words it -/

/-- The four underlying strategies, in the specification's numbering. -/
inductive Strategy where
  /-- Strategy 1: `krb5_get_error_string(ctx)`. -/
  | get_error_string : Strategy
  /-- Strategy 2: `krb5_get_err_text(ctx, code)`. -/
  | get_err_text : Strategy
  /-- Strategy 3: `krb5_svc_get_msg(code, &msg)`. -/
  | svc_get_msg : Strategy
  /-- Strategy 4: `error_message(code)`. -/
  | error_message : Strategy
  deriving DecidableEq, Repr

/-- Specification wording: the priority order of the strategies. -/
def Strategy.priority : List Strategy :=
  [Strategy.get_error_string, Strategy.get_err_text, Strategy.svc_get_msg,
   Strategy.error_message]

/-- Specification wording: a strategy is available when its capability flag is
defined; the context-free table lookup is always available. -/
def Strategy.available (cfg : Config) : Strategy → Bool
  | Strategy.get_error_string => cfg.HAVE_KRB5_GET_ERROR_STRING
  | Strategy.get_err_text => cfg.HAVE_KRB5_GET_ERR_TEXT
  | Strategy.svc_get_msg => cfg.HAVE_KRB5_SVC_GET_MSG
  | Strategy.error_message => true

/-- Specification wording: "priority order, first available wins". -/
def Strategy.selected (cfg : Config) : Strategy :=
  (Strategy.priority.find? (Strategy.available cfg)).getD Strategy.error_message

/-- The library call by which a strategy is carried out. -/
def Strategy.call (ctx : krb5_context) (code : krb5_error_code) : Strategy → Call
  | Strategy.get_error_string => Call.krb5_get_error_string ctx
  | Strategy.get_err_text => Call.krb5_get_err_text ctx code
  | Strategy.svc_get_msg => Call.krb5_svc_get_msg code
  | Strategy.error_message => Call.error_message code

/-- Specification wording of the release contract: the deallocator calls owed
for a message `msg` obtained under configuration `cfg`. Storage is released
exactly when it was allocated by strategy 1 or 3, with the deallocator of that
strategy; the static fallback and the messages of strategies 2 and 4 are never
released. -/
def Strategy.releaseOwed (cfg : Config) (ctx : krb5_context) (msg : CharPtr) : List Call :=
  if msg = CharPtr.error_unknown then
    []
  else
    match Strategy.selected cfg with
    | Strategy.get_error_string => [Call.krb5_free_error_string ctx msg]
    | Strategy.svc_get_msg => [Call.krb5_free_string ctx msg]
    | Strategy.get_err_text => []
    | Strategy.error_message => []

/-! ## Options allocator -/

/-- A `krb5_get_init_creds_opt *`; `none` is `NULL`, `some a` the block with
identifier `a`. -/
abbrev OptsPtr := Option Nat

/-- One call made by `krb5_get_init_creds_opt_alloc`. -/
inductive SysCall where
  | calloc (nmemb size : Nat) : SysCall
  | krb5_get_init_creds_opt_init (opt : OptsPtr) : SysCall
  deriving DecidableEq, Repr

/-- Machine state seen by the allocator: the live heap blocks with their bytes,
the value of `errno`, and the log of calls made so far. -/
structure Machine where
  heap : Nat → Option (List Nat)
  errno : Int
  calls : List SysCall

/-- What the platform allocator does on one call: it fails, leaving `errno`
with the given value (possibly the value it had before), or it succeeds with
the given block. -/
inductive CallocOutcome where
  | fail (errno : Int) : CallocOutcome
  | ok (block : Nat) (errno : Int) : CallocOutcome
  deriving DecidableEq, Repr

/-- Whether the outcome is a successful allocation. -/
def CallocOutcome.succeeded : CallocOutcome → Bool
  | CallocOutcome.fail _ => false
  | CallocOutcome.ok _ _ => true

/-- The value of `errno` once the allocator has returned. -/
def CallocOutcome.errnoAfter : CallocOutcome → Int
  | CallocOutcome.fail e => e
  | CallocOutcome.ok _ e => e

/-- Platform parameters of the allocator: the size of the options structure and
the effect of the library initialiser on the bytes of the object it is given. -/
structure Platform where
  sizeof_krb5_get_init_creds_opt : Nat
  opt_init : List Nat → List Nat

/-- The libc function `calloc(nmemb, size)` under a given outcome: on success the
returned block holds `nmemb * size` zero bytes. -/
def calloc (o : CallocOutcome) (nmemb size : Nat) (m : Machine) : OptsPtr × Machine :=
  match o with
  | CallocOutcome.fail e =>
    (none, ⟨m.heap, e, m.calls ++ [SysCall.calloc nmemb size]⟩)
  | CallocOutcome.ok a e =>
    (some a, ⟨Function.update m.heap a (some (List.replicate (nmemb * size) 0)), e,
      m.calls ++ [SysCall.calloc nmemb size]⟩)

/-- The library call `krb5_get_init_creds_opt_init(opt)`: rewrites in place the
object `opt` points to. -/
def krb5_get_init_creds_opt_init (P : Platform) (opt : OptsPtr) (m : Machine) : Machine :=
  match opt with
  | none => ⟨m.heap, m.errno, m.calls ++ [SysCall.krb5_get_init_creds_opt_init opt]⟩
  | some a =>
    ⟨Function.update m.heap a ((m.heap a).map P.opt_init), m.errno,
      m.calls ++ [SysCall.krb5_get_init_creds_opt_init opt]⟩

/-- The function `krb5_get_init_creds_opt_alloc` (lines 99-107). `_opts` is the
content of the output slot on entry, which the assignment of line 102
overwrites; the result is the status, the content of the slot on return, and
the new machine state. -/
def krb5_get_init_creds_opt_alloc (P : Platform) (o : CallocOutcome)
    (_ctx : krb5_context) (_opts : OptsPtr) (m : Machine) :
    krb5_error_code × OptsPtr × Machine :=
  let r := calloc o 1 P.sizeof_krb5_get_init_creds_opt m
  let opts : OptsPtr := r.1
  if opts = none then
    (r.2.errno, opts, r.2)
  else
    let m := krb5_get_init_creds_opt_init P opts r.2
    (0, opts, m)

/-- Specification wording: zero-initialise an options object held in block `a`
by hand, then call the underlying initialiser on it once. -/
def manual_zero_init_then_init (P : Platform) (a : Nat) (m : Machine) : Machine :=
  krb5_get_init_creds_opt_init P (some a)
    ⟨Function.update m.heap a (some (List.replicate P.sizeof_krb5_get_init_creds_opt 0)),
      m.errno, m.calls⟩

/-! ## Concrete instances used to evaluate the definitions -/

/-- A sample library whose state is the list of live message allocations.
Codes 1 and 2 have text; strategies 1 and 3 allocate, 2 and 4 return static
text. -/
def sampleLib : Krb5Lib (List Nat) where
  krb5_get_error_string := fun s ctx =>
    match ctx with
    | none => (none, s)
    | some c => (some (100 + c), (100 + c) :: s)
  krb5_get_err_text := fun s _ code =>
    if code = 1 then (some 7, s) else if code = 2 then (some 8, s) else (none, s)
  krb5_svc_get_msg := fun s code _ =>
    if code = 1 then ⟨0, some (some 200), 200 :: s⟩
    else if code = 2 then ⟨0, some (some 201), 201 :: s⟩
    else if code = 3 then ⟨1, some none, s⟩
    else ⟨1, none, s⟩
  error_message := fun s code =>
    if code = 1 then (some 7, s) else if code = 2 then (some 8, s) else (none, s)
  krb5_free_error_string := fun s _ msg =>
    match msg with
    | CharPtr.foreign a => s.erase a
    | _ => s
  krb5_free_string := fun s _ msg =>
    match msg with
    | CharPtr.foreign a => s.erase a
    | _ => s

/-- Contents of foreign storage in the sample: block 7 and block 8 hold static
library text, block 9 is a caller-owned copy of the fallback text. -/
def sampleMem : Nat → Option String
  | 7 => some "Decrypt integrity check failed"
  | 8 => some "Clients credentials have been revoked"
  | 9 => some "unknown error"
  | _ => none

/-- A sample platform: a four-byte options structure whose initialiser sets the
first byte (the flags). -/
def samplePlatform : Platform where
  sizeof_krb5_get_init_creds_opt := 4
  opt_init := fun bytes =>
    match bytes with
    | [] => []
    | _ :: rest => 64 :: rest

/-- A sample machine with one live block. -/
def sampleMachine : Machine where
  heap := fun a => if a = 3 then some [1, 2] else none
  errno := 0
  calls := []

/-- Specification wording: what a strategy yields for `ctx` and `code` in
library state `s`, `none` standing for "no message". The out-parameter of
strategy 3 starts as `NULL`, so leaving it untouched yields no message. -/
def Strategy.yield {σ : Type} (L : Krb5Lib σ) (ctx : krb5_context) (code : krb5_error_code)
    (s : σ) : Strategy → LibPtr
  | Strategy.get_error_string => (L.krb5_get_error_string s ctx).1
  | Strategy.get_err_text => (L.krb5_get_err_text s ctx code).1
  | Strategy.svc_get_msg => ((L.krb5_svc_get_msg s code CharPtr.null).store).getD none
  | Strategy.error_message => (L.error_message s code).1

/-! ## Facts about the lookup chain -/

theorem ofLib_ne_error_unknown (p : LibPtr) : CharPtr.ofLib p ≠ CharPtr.error_unknown := by
  cases p <;> simp [CharPtr.ofLib]

theorem ofLib_eq_null_iff (p : LibPtr) : CharPtr.ofLib p = CharPtr.null ↔ p = none := by
  cases p <;> simp [CharPtr.ofLib]

/-- The lookup chain returns what the selected strategy yields. -/
theorem lookup_eq_yield {σ : Type} (cfg : Config) (L : Krb5Lib σ) (ctx : krb5_context)
    (code : krb5_error_code) (w : World σ) :
    (krb5_get_error_message_lookup cfg L ctx code w).1
      = CharPtr.ofLib (Strategy.yield L ctx code w.lib (Strategy.selected cfg)) := by
  rcases cfg with ⟨a, b, c⟩
  cases a <;> cases b <;> cases c <;>
    simp [krb5_get_error_message_lookup, Strategy.yield, Strategy.selected,
      Strategy.priority, Strategy.available, List.find?]
  all_goals
    cases (L.krb5_svc_get_msg w.lib code CharPtr.null).store <;> simp [CharPtr.ofLib]

/-- The lookup chain logs exactly the call of the selected strategy. -/
theorem lookup_log {σ : Type} (cfg : Config) (L : Krb5Lib σ) (ctx : krb5_context)
    (code : krb5_error_code) (w : World σ) :
    (krb5_get_error_message_lookup cfg L ctx code w).2.log
      = w.log ++ [Strategy.call ctx code (Strategy.selected cfg)] := by
  rcases cfg with ⟨a, b, c⟩
  cases a <;> cases b <;> cases c <;>
    simp [krb5_get_error_message_lookup, Strategy.call, Strategy.selected,
      Strategy.priority, Strategy.available, List.find?]

/-- The null test of lines 63-66 leaves the state of the lookup untouched. -/
theorem get_snd {σ : Type} (cfg : Config) (L : Krb5Lib σ) (ctx : krb5_context)
    (code : krb5_error_code) (w : World σ) :
    (krb5_get_error_message cfg L ctx code w).2
      = (krb5_get_error_message_lookup cfg L ctx code w).2 := by
  unfold krb5_get_error_message
  simp only []
  split <;> rfl

/-- The value returned by `krb5_get_error_message`, by cases on what the
selected strategy yields. -/
theorem get_fst {σ : Type} (cfg : Config) (L : Krb5Lib σ) (ctx : krb5_context)
    (code : krb5_error_code) (w : World σ) :
    (krb5_get_error_message cfg L ctx code w).1
      = match Strategy.yield L ctx code w.lib (Strategy.selected cfg) with
        | none => CharPtr.error_unknown
        | some a => CharPtr.foreign a := by
  have h := lookup_eq_yield cfg L ctx code w
  unfold krb5_get_error_message
  simp only []
  rw [h]
  cases Strategy.yield L ctx code w.lib (Strategy.selected cfg) <;> simp [CharPtr.ofLib]

theorem deallocCount_append (l₁ l₂ : List Call) :
    deallocCount (l₁ ++ l₂) = deallocCount l₁ + deallocCount l₂ := by
  simp [deallocCount, List.filter_append]

/-- Releasing the static fallback leaves the state as it is. -/
theorem free_error_unknown {σ : Type} (cfg : Config) (L : Krb5Lib σ) (ctx : krb5_context)
    (w : World σ) : krb5_free_error_message cfg L ctx CharPtr.error_unknown w = w := by
  simp [krb5_free_error_message]

/-! ## Claims on the error-message adapter -/

/-- C1: for every configuration, context, error code and behaviour of the
underlying library, `krb5_get_error_message` returns a non-null message. -/
theorem krb5_get_error_message_ne_null {σ : Type} (cfg : Config) (L : Krb5Lib σ)
    (ctx : krb5_context) (code : krb5_error_code) (w : World σ) :
    (krb5_get_error_message cfg L ctx code w).1 ≠ CharPtr.null := by
  rw [get_fst]
  cases Strategy.yield L ctx code w.lib (Strategy.selected cfg) <;> simp

/-- C2: `krb5_get_error_message` returns the static constant `error_unknown`,
whose text is "unknown error", if and only if the selected strategy yields no
message; a non-null message of the strategy is returned unchanged: the result
is the very pointer the library call of the selected strategy produced
(`krb5_get_error_string` when its flag is defined, else `krb5_get_err_text`,
else what `krb5_svc_get_msg` stored through the out-parameter, else
`error_message`). -/
theorem krb5_get_error_message_fallback_iff {σ : Type} (cfg : Config) (L : Krb5Lib σ)
    (ctx : krb5_context) (code : krb5_error_code) (w : World σ) (mem : Nat → Option String)
    (b c : Bool) :
    ((krb5_get_error_message cfg L ctx code w).1 = CharPtr.error_unknown
        ↔ Strategy.yield L ctx code w.lib (Strategy.selected cfg) = none)
    ∧ ((krb5_get_error_message cfg L ctx code w).1 = CharPtr.error_unknown
        ↔ (krb5_get_error_message_lookup cfg L ctx code w).1 = CharPtr.null)
    ∧ (krb5_get_error_message cfg L ctx code w).1
        = (if (krb5_get_error_message_lookup cfg L ctx code w).1 = CharPtr.null
            then CharPtr.error_unknown
            else (krb5_get_error_message_lookup cfg L ctx code w).1)
    ∧ CharPtr.text mem CharPtr.error_unknown = some "unknown error"
    ∧ (krb5_get_error_message cfg L ctx code w).1
        = (match Strategy.yield L ctx code w.lib (Strategy.selected cfg) with
            | none => CharPtr.error_unknown
            | some a => CharPtr.foreign a)
    ∧ (∀ a : Nat, Strategy.yield L ctx code w.lib (Strategy.selected cfg) = some a →
        (krb5_get_error_message cfg L ctx code w).1 = CharPtr.foreign a)
    ∧ (krb5_get_error_message ⟨true, b, c⟩ L ctx code w).1
        = (match (L.krb5_get_error_string w.lib ctx).1 with
            | none => CharPtr.error_unknown
            | some a => CharPtr.foreign a)
    ∧ (krb5_get_error_message ⟨false, true, c⟩ L ctx code w).1
        = (match (L.krb5_get_err_text w.lib ctx code).1 with
            | none => CharPtr.error_unknown
            | some a => CharPtr.foreign a)
    ∧ (krb5_get_error_message ⟨false, false, true⟩ L ctx code w).1
        = (match (L.krb5_svc_get_msg w.lib code CharPtr.null).store with
            | some (some a) => CharPtr.foreign a
            | some none => CharPtr.error_unknown
            | none => CharPtr.error_unknown)
    ∧ (krb5_get_error_message ⟨false, false, false⟩ L ctx code w).1
        = (match (L.error_message w.lib code).1 with
            | none => CharPtr.error_unknown
            | some a => CharPtr.foreign a) := by
  have hy := lookup_eq_yield cfg L ctx code w
  have hg := get_fst cfg L ctx code w
  refine ⟨?_, ?_, ?_, rfl, hg, ?_, ?_, ?_, ?_, ?_⟩
  · rw [hg]
    cases Strategy.yield L ctx code w.lib (Strategy.selected cfg) <;> simp
  · rw [hg, hy]
    cases Strategy.yield L ctx code w.lib (Strategy.selected cfg) <;> simp [CharPtr.ofLib]
  · rw [hg, hy]
    cases Strategy.yield L ctx code w.lib (Strategy.selected cfg) <;> simp [CharPtr.ofLib]
  · intro a ha
    rw [hg, ha]
  · simp only [krb5_get_error_message, krb5_get_error_message_lookup]
    cases (L.krb5_get_error_string w.lib ctx).1 <;> simp [CharPtr.ofLib]
  · simp only [krb5_get_error_message, krb5_get_error_message_lookup]
    cases (L.krb5_get_err_text w.lib ctx code).1 <;> simp [CharPtr.ofLib]
  · simp only [krb5_get_error_message, krb5_get_error_message_lookup]
    rcases (L.krb5_svc_get_msg w.lib code CharPtr.null).store with _ | (_ | a) <;>
      simp [CharPtr.ofLib]
  · simp only [krb5_get_error_message, krb5_get_error_message_lookup]
    cases (L.error_message w.lib code).1 <;> simp [CharPtr.ofLib]

/-- Witness for C2: with only `HAVE_KRB5_GET_ERR_TEXT` defined the sample
library yields its static text in block 7 for code 1, and that pointer is
returned. -/
theorem krb5_get_error_message_fallback_iff_witness :
    (krb5_get_error_message ⟨false, true, false⟩ sampleLib (some 1) 1 ⟨[], []⟩).1
      = CharPtr.foreign 7 :=
  (krb5_get_error_message_fallback_iff ⟨false, true, false⟩ sampleLib (some 1) 1 ⟨[], []⟩
    sampleMem false false).2.2.2.2.2.1 7 (by decide)

/-- C3: `krb5_free_error_message` on the static fallback `error_unknown` calls no
deallocator and changes no state, however many times in a row it is called; and
acquiring a message when the selected strategy has no text, then releasing it,
performs no deallocation call. -/
theorem krb5_free_error_message_fallback_noop {σ : Type} (cfg : Config) (L : Krb5Lib σ)
    (ctx : krb5_context) (code : krb5_error_code) (w : World σ) :
    krb5_free_error_message cfg L ctx CharPtr.error_unknown w = w
    ∧ (∀ n : Nat, (krb5_free_error_message cfg L ctx CharPtr.error_unknown)^[n] w = w)
    ∧ (Strategy.yield L ctx code w.lib (Strategy.selected cfg) = none →
        krb5_free_error_message cfg L ctx (krb5_get_error_message cfg L ctx code w).1
            (krb5_get_error_message cfg L ctx code w).2
          = (krb5_get_error_message cfg L ctx code w).2
        ∧ deallocCount
            (krb5_free_error_message cfg L ctx (krb5_get_error_message cfg L ctx code w).1
              (krb5_get_error_message cfg L ctx code w).2).log
          = deallocCount w.log) := by
  refine ⟨free_error_unknown cfg L ctx w, ?_, ?_⟩
  · intro n
    exact Function.iterate_fixed (free_error_unknown cfg L ctx w) n
  · intro h
    have hg := get_fst cfg L ctx code w
    rw [h] at hg
    simp only [] at hg
    rw [hg, free_error_unknown, get_snd, lookup_log, deallocCount_append]
    refine ⟨rfl, ?_⟩
    cases Strategy.selected cfg <;> simp [deallocCount, Strategy.call, Call.isDealloc]

/-- Witness for C3: strategy 3 of the sample library leaves its out-parameter
untouched for code 5. -/
theorem krb5_free_error_message_fallback_noop_witness :
    krb5_free_error_message ⟨false, false, true⟩ sampleLib (some 1)
        (krb5_get_error_message ⟨false, false, true⟩ sampleLib (some 1) 5 ⟨[200], []⟩).1
        (krb5_get_error_message ⟨false, false, true⟩ sampleLib (some 1) 5 ⟨[200], []⟩).2
      = (krb5_get_error_message ⟨false, false, true⟩ sampleLib (some 1) 5 ⟨[200], []⟩).2
    ∧ deallocCount
        (krb5_free_error_message ⟨false, false, true⟩ sampleLib (some 1)
          (krb5_get_error_message ⟨false, false, true⟩ sampleLib (some 1) 5 ⟨[200], []⟩).1
          (krb5_get_error_message ⟨false, false, true⟩ sampleLib (some 1) 5 ⟨[200], []⟩).2).log
      = deallocCount ([] : List Call) :=
  (krb5_free_error_message_fallback_noop ⟨false, false, true⟩ sampleLib (some 1) 5
    ⟨[200], []⟩).2.2 (by decide)

/-- C9: `krb5_get_error_message` makes exactly one library call, that of the
first available strategy in the priority order 1-4: strategy k is selected if
and only if its flag is defined and the flags of the strategies before it are
not, strategy 4 exactly when no flag is defined; under strategy 4 the outcome
is the same for every context, the null context included. -/
theorem krb5_get_error_message_strategy {σ : Type} (cfg : Config) (L : Krb5Lib σ)
    (ctx : krb5_context) (code : krb5_error_code) (w : World σ) :
    (krb5_get_error_message cfg L ctx code w).2.log
        = w.log ++ [Strategy.call ctx code (Strategy.selected cfg)]
    ∧ (Strategy.selected cfg = Strategy.get_error_string
        ↔ cfg.HAVE_KRB5_GET_ERROR_STRING = true)
    ∧ (Strategy.selected cfg = Strategy.get_err_text
        ↔ cfg.HAVE_KRB5_GET_ERROR_STRING = false ∧ cfg.HAVE_KRB5_GET_ERR_TEXT = true)
    ∧ (Strategy.selected cfg = Strategy.svc_get_msg
        ↔ cfg.HAVE_KRB5_GET_ERROR_STRING = false ∧ cfg.HAVE_KRB5_GET_ERR_TEXT = false
          ∧ cfg.HAVE_KRB5_SVC_GET_MSG = true)
    ∧ (Strategy.selected cfg = Strategy.error_message
        ↔ cfg.HAVE_KRB5_GET_ERROR_STRING = false ∧ cfg.HAVE_KRB5_GET_ERR_TEXT = false
          ∧ cfg.HAVE_KRB5_SVC_GET_MSG = false)
    ∧ krb5_get_error_message ⟨false, false, false⟩ L ctx code w
        = krb5_get_error_message ⟨false, false, false⟩ L none code w := by
  refine ⟨?_, ?_, ?_, ?_, ?_, ?_⟩
  · rw [get_snd, lookup_log]
  all_goals first
    | rfl
    | (rcases cfg with ⟨a, b, c⟩
       cases a <;> cases b <;> cases c <;>
         simp [Strategy.selected, Strategy.priority, Strategy.available, List.find?])

/-- C10, as the code has it: `krb5_free_error_message` calls no deallocator
exactly when the pointer is the static constant `error_unknown` or the
configuration compiles no deallocator call into it (neither
`HAVE_KRB5_GET_ERROR_STRING` nor `HAVE_KRB5_SVC_GET_MSG`). Where a deallocator is
compiled in, the test is by identity: a foreign pointer is handed to the
deallocator even when its text equals that of the constant. -/
theorem krb5_free_error_message_noop_iff {σ : Type} (cfg : Config) (L : Krb5Lib σ)
    (ctx : krb5_context) (msg : CharPtr) (w : World σ) (mem : Nat → Option String) :
    (deallocCount (krb5_free_error_message cfg L ctx msg w).log = deallocCount w.log
        ↔ (msg = CharPtr.error_unknown
            ∨ (cfg.HAVE_KRB5_GET_ERROR_STRING = false ∧ cfg.HAVE_KRB5_SVC_GET_MSG = false)))
    ∧ (krb5_free_error_message cfg L ctx msg w = w
        ↔ (msg = CharPtr.error_unknown
            ∨ (cfg.HAVE_KRB5_GET_ERROR_STRING = false ∧ cfg.HAVE_KRB5_SVC_GET_MSG = false)))
    ∧ (∀ a : Nat,
        (cfg.HAVE_KRB5_GET_ERROR_STRING = true ∨ cfg.HAVE_KRB5_SVC_GET_MSG = true) →
        CharPtr.text mem (CharPtr.foreign a) = CharPtr.text mem CharPtr.error_unknown →
        (krb5_free_error_message cfg L ctx (CharPtr.foreign a) w).log
          = w.log ++ [if cfg.HAVE_KRB5_GET_ERROR_STRING
                        then Call.krb5_free_error_string ctx (CharPtr.foreign a)
                        else Call.krb5_free_string ctx (CharPtr.foreign a)]) := by
  rcases cfg with ⟨a, b, c⟩
  rcases w with ⟨s, log⟩
  refine ⟨?_, ?_, ?_⟩
  · by_cases hm : msg = CharPtr.error_unknown
    · simp [krb5_free_error_message, hm]
    · cases a <;> cases c <;>
        simp [krb5_free_error_message, hm, deallocCount_append, deallocCount, Call.isDealloc]
  · by_cases hm : msg = CharPtr.error_unknown
    · simp [krb5_free_error_message, hm]
    · cases a <;> cases c <;> simp [krb5_free_error_message, hm]
  · intro x hx _
    cases a <;> cases c <;> simp_all [krb5_free_error_message]

/-- Witness for C10: with strategy 1 compiled in, a caller-owned copy of the
text "unknown error" is passed to `krb5_free_error_string`. -/
theorem krb5_free_error_message_noop_iff_witness :
    (krb5_free_error_message ⟨true, false, false⟩ sampleLib (some 1) (CharPtr.foreign 9)
        ⟨[9], []⟩).log
      = [] ++ [if (Config.mk true false false).HAVE_KRB5_GET_ERROR_STRING
                then Call.krb5_free_error_string (some 1) (CharPtr.foreign 9)
                else Call.krb5_free_string (some 1) (CharPtr.foreign 9)] :=
  (krb5_free_error_message_noop_iff ⟨true, false, false⟩ sampleLib (some 1)
    (CharPtr.foreign 9) ⟨[9], []⟩ sampleMem).2.2 9 (Or.inl rfl) (by decide)

/-- C10 counterexample: with only `HAVE_KRB5_GET_ERR_TEXT` defined,
`krb5_free_error_message` calls no deallocator on a pointer that is not the
static constant. -/
theorem krb5_free_error_message_noop_not_fallback :
    ¬ (deallocCount
          (krb5_free_error_message ⟨false, true, false⟩ sampleLib (some 1) (CharPtr.foreign 7)
            ⟨[], []⟩).log = deallocCount []
        ↔ CharPtr.foreign 7 = CharPtr.error_unknown) := by
  decide

/-- Outside the configuration that defines `HAVE_KRB5_GET_ERR_TEXT` and
`HAVE_KRB5_SVC_GET_MSG` without `HAVE_KRB5_GET_ERROR_STRING`, the release
function makes exactly the deallocator calls the release contract owes. -/
theorem free_log_eq_releaseOwed {σ : Type} (cfg : Config) (L : Krb5Lib σ)
    (ctx : krb5_context) (msg : CharPtr) (w : World σ)
    (h : ¬ (cfg.HAVE_KRB5_GET_ERROR_STRING = false ∧ cfg.HAVE_KRB5_GET_ERR_TEXT = true
            ∧ cfg.HAVE_KRB5_SVC_GET_MSG = true)) :
    (krb5_free_error_message cfg L ctx msg w).log
      = w.log ++ Strategy.releaseOwed cfg ctx msg := by
  rcases cfg with ⟨a, b, c⟩
  by_cases hm : msg = CharPtr.error_unknown
  · simp [krb5_free_error_message, Strategy.releaseOwed, hm]
  · cases a <;> cases b <;> cases c <;>
      simp_all [krb5_free_error_message, Strategy.releaseOwed, Strategy.selected,
        Strategy.priority, Strategy.available, List.find?]

/-- C4 at the failing configuration (`HAVE_KRB5_GET_ERR_TEXT` and
`HAVE_KRB5_SVC_GET_MSG` defined, `HAVE_KRB5_GET_ERROR_STRING` not): the message
comes from strategy 2, `krb5_get_err_text`, the release contract owes no
deallocation, and `krb5_free_error_message` passes it to `krb5_free_string`. -/
theorem krb5_free_error_message_frees_err_text :
    Strategy.selected ⟨false, true, true⟩ = Strategy.get_err_text
    ∧ krb5_get_error_message ⟨false, true, true⟩ sampleLib (some 1) 1 ⟨[], []⟩
        = (CharPtr.foreign 7, ⟨[], [Call.krb5_get_err_text (some 1) 1]⟩)
    ∧ Strategy.releaseOwed ⟨false, true, true⟩ (some 1) (CharPtr.foreign 7) = []
    ∧ (krb5_free_error_message ⟨false, true, true⟩ sampleLib (some 1)
          (krb5_get_error_message ⟨false, true, true⟩ sampleLib (some 1) 1 ⟨[], []⟩).1
          (krb5_get_error_message ⟨false, true, true⟩ sampleLib (some 1) 1 ⟨[], []⟩).2).log
        = [Call.krb5_get_err_text (some 1) 1,
           Call.krb5_free_string (some 1) (CharPtr.foreign 7)] := by
  decide

/-! ## Claims on the options allocator -/

/-- C5, as the code has it: when the allocation fails, the output slot holds
`NULL` on return whatever it held on entry, and the heap is untouched. -/
theorem krb5_get_init_creds_opt_alloc_fail_slot (P : Platform) (e : Int)
    (ctx : krb5_context) (opts : OptsPtr) (m : Machine) :
    (krb5_get_init_creds_opt_alloc P (CallocOutcome.fail e) ctx opts m).2.1 = none
    ∧ (krb5_get_init_creds_opt_alloc P (CallocOutcome.fail e) ctx opts m).2.2.heap = m.heap := by
  simp [krb5_get_init_creds_opt_alloc, calloc]

/-- C5 counterexample: a slot that held a pointer to block 3 on entry holds
`NULL`, not that pointer, after a failed allocation. -/
theorem krb5_get_init_creds_opt_alloc_fail_overwrites_slot :
    (krb5_get_init_creds_opt_alloc samplePlatform (CallocOutcome.fail 12) (some 1) (some 3)
        sampleMachine).2.1 ≠ some 3 := by
  decide

/-- C6: when the allocation fails with `errno` equal to `e`, the function
returns exactly `e`, and its only call is the `calloc` itself: the initialiser
`krb5_get_init_creds_opt_init` is not invoked and no second allocation is
attempted. -/
theorem krb5_get_init_creds_opt_alloc_fail_status (P : Platform) (e : Int)
    (ctx : krb5_context) (opts : OptsPtr) (m : Machine) :
    (krb5_get_init_creds_opt_alloc P (CallocOutcome.fail e) ctx opts m).1 = e
    ∧ (krb5_get_init_creds_opt_alloc P (CallocOutcome.fail e) ctx opts m).2.2.calls
        = m.calls ++ [SysCall.calloc 1 P.sizeof_krb5_get_init_creds_opt]
    ∧ (krb5_get_init_creds_opt_alloc P (CallocOutcome.fail e) ctx opts m).2.2.errno = e := by
  simp [krb5_get_init_creds_opt_alloc, calloc]

/-- C7: when the allocation succeeds with block `a`, the function returns 0, the
output slot points to `a`, the block was obtained by one `calloc` of one object
of the size of the options structure, the initialiser was called once on it,
and the heap is the one obtained by zero-initialising an options object in `a`
by hand and calling the initialiser on it once: the block holds the
initialiser's result on an all-zero object. -/
theorem krb5_get_init_creds_opt_alloc_success (P : Platform) (a : Nat) (e : Int)
    (ctx : krb5_context) (opts : OptsPtr) (m : Machine) :
    (krb5_get_init_creds_opt_alloc P (CallocOutcome.ok a e) ctx opts m).1 = 0
    ∧ (krb5_get_init_creds_opt_alloc P (CallocOutcome.ok a e) ctx opts m).2.1 = some a
    ∧ (krb5_get_init_creds_opt_alloc P (CallocOutcome.ok a e) ctx opts m).2.2.calls
        = m.calls ++ [SysCall.calloc 1 P.sizeof_krb5_get_init_creds_opt,
                      SysCall.krb5_get_init_creds_opt_init (some a)]
    ∧ ((calloc (CallocOutcome.ok a e) 1 P.sizeof_krb5_get_init_creds_opt m).2.heap a).map
          List.length = some P.sizeof_krb5_get_init_creds_opt
    ∧ (krb5_get_init_creds_opt_alloc P (CallocOutcome.ok a e) ctx opts m).2.2.heap a
        = some (P.opt_init (List.replicate P.sizeof_krb5_get_init_creds_opt 0))
    ∧ (krb5_get_init_creds_opt_alloc P (CallocOutcome.ok a e) ctx opts m).2.2.heap
        = (manual_zero_init_then_init P a m).heap := by
  simp [krb5_get_init_creds_opt_alloc, calloc, krb5_get_init_creds_opt_init,
    manual_zero_init_then_init]

/-- C8, as the code has it: the status is the value of `errno` after a failed
allocation and 0 after a successful one, so it is 0 if and only if the
allocation succeeded or failed with `errno` equal to 0; after a success the
output slot is non-null. -/
theorem krb5_get_init_creds_opt_alloc_status_zero_iff (P : Platform) (o : CallocOutcome)
    (ctx : krb5_context) (opts : OptsPtr) (m : Machine) :
    ((krb5_get_init_creds_opt_alloc P o ctx opts m).1 = 0
        ↔ (o.succeeded = true ∨ o.errnoAfter = 0))
    ∧ ((krb5_get_init_creds_opt_alloc P o ctx opts m).2.1 ≠ none ↔ o.succeeded = true)
    ∧ (krb5_get_init_creds_opt_alloc P o ctx opts m).1
        = (if o.succeeded then 0 else o.errnoAfter) := by
  cases o <;>
    simp [krb5_get_init_creds_opt_alloc, calloc, CallocOutcome.succeeded,
      CallocOutcome.errnoAfter]

/-- C8 counterexample: an allocation that fails with `errno` equal to 0 makes
the function return 0 with a null output slot. -/
theorem krb5_get_init_creds_opt_alloc_fail_status_zero :
    ¬ ((krb5_get_init_creds_opt_alloc samplePlatform (CallocOutcome.fail 0) (some 1) none
          sampleMachine).1 = 0
        ↔ (CallocOutcome.fail 0).succeeded = true) := by
  decide

end Krb5Extra
